import Mathlib

/-!
Shallow embedding of the zkpepe-claimer program (Python sources:
utils.py, client.py, claimer.py, database.py, wallet_model.py, config.py,
constants.py).  Network and library effects are passed in explicitly as
environments; every modelled operation additionally returns the list of
observable events (HTTP requests, chain reads, broadcasts, store writes,
sleeps) it performs, in order.
-/

namespace ZkPepe

/-- Observable events performed by the program.  `invoke k` marks the k-th
invocation of an operation wrapped by the retry decorator, `invokeProtected`
marks the single invocation performed by the gas-gate decorator. -/
inductive Event where
  | httpGet (url : String)
  | chainRead (what : String)
  | readGasPrice (p : Nat)
  | gasWait
  | invokeProtected
  | invoke (k : Nat)
  | broadcast
  | receiptPoll
  | clientInit
  | fileRead
  | deleteWallet (i : Nat)
  | saveDatabase
  | sleepEvent
deriving DecidableEq, Repr

/-- Classifies the events that correspond to a network call (HTTP request,
chain read, gas-price read, transaction broadcast, receipt poll). -/
def isNetworkEvent : Event → Bool
  | .httpGet _ => true
  | .chainRead _ => true
  | .readGasPrice _ => true
  | .broadcast => true
  | .receiptPoll => true
  | _ => false

/-- The broadcast event alone (used to state that no transaction was sent). -/
def isBroadcast : Event → Bool
  | .broadcast => true
  | _ => false

/-- The gas-gate invocation event. -/
def isInvokeProtected : Event → Bool
  | .invokeProtected => true
  | _ => false

/-- Outcome of a Python coroutine as observed by the retry decorator in
utils.py: it either raised an exception, returned `None`, returned `False`,
or returned any other value (which the decorator treats as success). -/
inductive PyOutcome (α : Type) where
  | raised (e : String)
  | pyNone
  | pyFalse
  | val (a : α)
deriving DecidableEq, Repr

/-- constants.py: `REQUEST_MAX_RETRIES = 10`. -/
def REQUEST_MAX_RETRIES : Nat := 10

/-- config.py: `GAS_THRESHOLD = 70` (gwei). -/
def GAS_THRESHOLD : Nat := 70

/-- config.py: `USE_MOBILE_PROXY = False`. -/
def USE_MOBILE_PROXY : Bool := false

/-- constants.py: `ZKPEPE_DECIMALS = 18`. -/
def ZKPEPE_DECIMALS : Nat := 18

/-- Loop of `retry` in utils.py.  `f k` is the (events, outcome) of the k-th
invocation of the wrapped coroutine.  A `None` or `False` result sleeps and
retries; any other value is returned; an exception is not caught and
propagates; after the try budget is exhausted the decorator returns `False`. -/
def retryGo {α : Type} (f : Nat → List Event × PyOutcome α) : Nat → Nat → List Event × PyOutcome α
  | _, 0 => ([], PyOutcome.pyFalse)
  | k, n + 1 =>
    let r := f k
    match r.2 with
    | .raised e => (Event.invoke k :: r.1, .raised e)
    | .pyNone =>
      let rest := retryGo f (k + 1) n
      (Event.invoke k :: r.1 ++ Event.sleepEvent :: rest.1, rest.2)
    | .pyFalse =>
      let rest := retryGo f (k + 1) n
      (Event.invoke k :: r.1 ++ Event.sleepEvent :: rest.1, rest.2)
    | .val a => (Event.invoke k :: r.1, .val a)

/-- utils.py `retry(tries)` decorator applied to a wrapped coroutine `f`. -/
def retry {α : Type} (tries : Nat) (f : Nat → List Event × PyOutcome α) : List Event × PyOutcome α :=
  retryGo f 0 tries

/-- Loop of `gas_delay` in utils.py.  `prices k` is the gas price returned by
the k-th read of the mainnet gas price; while the price strictly exceeds the
threshold (in wei) the loop sleeps and re-reads; otherwise it breaks and runs
the wrapped coroutine once.  The Python loop is unbounded, so the model takes
a fuel bound and returns `none` when the fuel is exhausted. -/
def gasDelayGo {α : Type} (prices : Nat → Nat) (thresholdWei : Nat) (body : List Event × α) :
    Nat → Nat → Option (List Event × α)
  | _, 0 => none
  | k, n + 1 =>
    if thresholdWei < prices k then
      match gasDelayGo prices thresholdWei body (k + 1) n with
      | none => none
      | some (es, a) => some (Event.readGasPrice (prices k) :: Event.gasWait :: es, a)
    else
      some (Event.readGasPrice (prices k) :: Event.invokeProtected :: body.1, body.2)

/-- utils.py `gas_delay(gas_threshold, delay_range)` decorator.  The threshold
is given in gwei and converted with `to_wei(·, "gwei")`, i.e. multiplied by
10^9. -/
def gas_delay {α : Type} (fuel : Nat) (gasThresholdGwei : Nat) (prices : Nat → Nat)
    (body : List Event × α) : Option (List Event × α) :=
  gasDelayGo prices (gasThresholdGwei * 10 ^ 9) body 0 fuel

/-- Transaction parameter dictionary assembled by `Client._get_tx_params`
(client.py).  The `gas` entry is absent at this stage; it is added later by
`send_transaction`. -/
structure TxParams where
  chainId : Nat
  nonce : Nat
  fromAddr : String
  toAddr : Option String
  data : Option String
  value : Option Nat
  gasPrice : Nat
deriving DecidableEq, Repr

/-- Results of the three chain reads performed by one invocation of
`Client._get_tx_params`: `w3.eth.chain_id`, `w3.eth.get_transaction_count`
and `w3.eth.gas_price`.  Each either returns a value or raises. -/
structure BuildAttempt where
  chainIdRes : Except String Nat
  txCountRes : Except String Nat
  gasPriceRes : Except String Nat

/-- Body of `Client._get_tx_params` (client.py).  The function contains no
try/except, so an exception from any of the three chain reads propagates. -/
def getTxParamsOnce (env : BuildAttempt) (selfAddr : String)
    (toArg data fromArg : Option String) (value : Option Nat) : List Event × PyOutcome TxParams :=
  match env.chainIdRes with
  | .error e => ([Event.chainRead "chain_id"], .raised e)
  | .ok cid =>
    match env.txCountRes with
    | .error e => ([Event.chainRead "chain_id", Event.chainRead "get_transaction_count"], .raised e)
    | .ok nonce =>
      match env.gasPriceRes with
      | .error e =>
        ([Event.chainRead "chain_id", Event.chainRead "get_transaction_count",
          Event.chainRead "gas_price"], .raised e)
      | .ok gp =>
        ([Event.chainRead "chain_id", Event.chainRead "get_transaction_count",
          Event.chainRead "gas_price"],
         .val { chainId := cid, nonce := nonce, fromAddr := fromArg.getD selfAddr,
                toAddr := toArg, data := data, value := value, gasPrice := gp })

/-- Body of `Client._get_gas_estimate` (client.py): `w3.eth.estimate_gas`
inside a try/except that logs and returns `None` on any exception. -/
def getGasEstimateOnce (res : Except String Nat) : List Event × PyOutcome Nat :=
  ([Event.chainRead "estimate_gas"],
   match res with
   | .ok n => .val n
   | .error _ => .pyNone)

/-- The slot stored into `tx_params["gas"]` by `send_transaction`.  Because
the retry decorator returns the boolean `False` after exhausting its tries,
the slot can hold either an integer or the Python `False`. -/
inductive GasSlot where
  | num (n : Nat)
  | pyFalse
deriving DecidableEq, Repr

/-- Environment for one `Client.send_transaction` call: the chain-read
results of each build attempt, the estimate result of each estimate attempt,
the outcome of `eth.account.sign_transaction` (raises on invalid parameters;
not inside a try block) and of `w3.eth.send_raw_transaction` (its exception
is caught and turned into `None`; success yields a hash). -/
structure SendEnv where
  buildAttempts : Nat → BuildAttempt
  estimateAttempts : Nat → Except String Nat
  signRes : Except String Unit
  sendRawRes : Except String Nat

/-- Result of `Client.send_transaction`: a raised exception, the `None`
failure sentinel, or a transaction hash. -/
inductive SendResult where
  | raised (e : String)
  | noneHash
  | hash (h : Nat)
deriving DecidableEq, Repr

/-- Tail of `send_transaction` after the gas slot has been filled in:
`sign_transaction` (uncaught on raise) followed by `send_raw_transaction`
inside a try/except returning `None` on rejection. -/
def sendAfterGas (env : SendEnv) (es : List Event) (_tp : TxParams) (_gas : GasSlot) :
    List Event × SendResult :=
  match env.signRes with
  | .error e => (es, .raised e)
  | .ok _ =>
    match env.sendRawRes with
    | .error _ => (es ++ [Event.broadcast], .noneHash)
    | .ok h => (es ++ [Event.broadcast], .hash h)

/-- Step of `send_transaction` following the gas estimate: the code checks
`if gas is None: return None` and otherwise stores the estimate result —
including the boolean `False` produced by retry exhaustion — into
`tx_params["gas"]` and goes on to sign and broadcast. -/
def sendStep3 (env : SendEnv) (es : List Event) (tp : TxParams)
    (gasr : List Event × PyOutcome Nat) : List Event × SendResult :=
  match gasr.2 with
  | .raised e => (es ++ gasr.1, .raised e)
  | .pyNone => (es ++ gasr.1, .noneHash)
  | .pyFalse => sendAfterGas env (es ++ gasr.1) tp GasSlot.pyFalse
  | .val g => sendAfterGas env (es ++ gasr.1) tp (GasSlot.num g)

/-- Step of `send_transaction` following the build: a raised build exception
propagates; a falsy build result would fault on the later item assignment
`tx_params["gas"] = gas` (this branch is unreachable because
`_get_tx_params` never returns a falsy value); otherwise the retry-wrapped
gas estimate runs. -/
def sendStep2 (env : SendEnv) (built : List Event × PyOutcome TxParams) :
    List Event × SendResult :=
  match built.2 with
  | .raised e => (built.1, .raised e)
  | .pyNone => (built.1, .raised "TypeError")
  | .pyFalse => (built.1, .raised "TypeError")
  | .val tp =>
    sendStep3 env built.1 tp
      (retry REQUEST_MAX_RETRIES (fun k => getGasEstimateOnce (env.estimateAttempts k)))

/-- `Client.send_transaction` (client.py): retry-wrapped `_get_tx_params`,
retry-wrapped `_get_gas_estimate`, the `gas is None` guard, local signing,
and the guarded broadcast. -/
def send_transaction (env : SendEnv) (selfAddr : String)
    (toArg data fromArg : Option String) (value : Option Nat) : List Event × SendResult :=
  sendStep2 env
    (retry REQUEST_MAX_RETRIES
      (fun k => getTxParamsOnce (env.buildAttempts k) selfAddr toArg data fromArg value))

/-- Wallet record (wallet_model.py): private key, derived address, optional
proxy, and the claimed flag (default `False`). -/
structure Wallet where
  private_key : String
  address : String
  proxy : Option String
  tokens_claimed : Bool
deriving DecidableEq, Repr

/-- Interpretation of the `Client` constructor checks (client.py): whether
`Account.from_key` accepts a key, the address derived from a key, and
whether a proxy string matches `PROXY_PATTERN`. -/
structure ClientCfg where
  validKey : String → Bool
  derive : String → String
  validProxy : String → Bool

/-- Fatal terminations of the `Client` constructor and of database creation:
`Account.from_key(None)` raises `TypeError` (caught only in
`Database._create_database`); an invalid key or proxy logs and exits; a proxy
surplus logs and exits. -/
inductive Fatal where
  | typeErrorNoneKey
  | invalidKeyExit
  | invalidProxyExit
  | proxyCountExit
deriving DecidableEq, Repr

/-- Local part of the `Client` constructor (client.py `Client.__init__`):
validate the private key (a `None` key raises `TypeError`; an invalid key
fatal-exits), then validate the proxy format (an invalid proxy fatal-exits),
then derive the checksum address from the key. -/
def mkClient (cfg : ClientCfg) (pk : Option String) (proxy : Option String) :
    Except Fatal Wallet :=
  match pk with
  | none => .error .typeErrorNoneKey
  | some k =>
    if cfg.validKey k then
      match proxy with
      | none => .ok { private_key := k, address := cfg.derive k, proxy := none,
                      tokens_claimed := false }
      | some p =>
        if cfg.validProxy p then
          .ok { private_key := k, address := cfg.derive k, proxy := some p,
                tokens_claimed := false }
        else .error .invalidProxyExit
    else .error .invalidKeyExit

/-- `itertools.zip_longest` with `fillvalue=None`, as used by
`Database._create_database`. -/
def zipLongest {α β : Type} : List α → List β → List (Option α × Option β)
  | [], bs => bs.map (fun b => (none, some b))
  | a :: as, [] => (some a, none) :: zipLongest as []
  | a :: as, b :: bs => (some a, some b) :: zipLongest as bs

/-- Loop of `Database._create_database` (database.py): for each zipped
(key, proxy) pair build `Wallet(account=Client(pk, proxy))`; a `TypeError`
(raised when the key slot is `None`, i.e. the proxies outnumber the keys) is
caught and turned into the proxy-count fatal exit; the constructor's own
fatal exits propagate. -/
def createGo (cfg : ClientCfg) : List (Option String × Option String) → Except Fatal (List Wallet)
  | [] => .ok []
  | (pk, px) :: rest =>
    match mkClient cfg pk px with
    | .error .typeErrorNoneKey => .error .proxyCountExit
    | .error f => .error f
    | .ok w => (createGo cfg rest).map (fun ws => w :: ws)

/-- `Database._create_database` (database.py): read the key and proxy lists,
multiply the proxy list when `USE_MOBILE_PROXY` is set, then zip-longest the
two lists and build a wallet per pair. -/
def createDatabase (cfg : ClientCfg) (keys proxies : List String) (useMobileProxy : Bool) :
    Except Fatal (List Wallet) :=
  let proxiesEff := if useMobileProxy then (List.replicate keys.length proxies).flatten else proxies
  createGo cfg (zipLongest keys proxiesEff)

/-- One JSON object of the persisted store file (database.py
`Database._to_dict` writes `vars(wallet)`: private_key, address, proxy,
tokens_claimed). -/
structure WalletRow where
  private_key : String
  address : String
  proxy : Option String
  tokens_claimed : Bool
deriving DecidableEq, Repr

/-- The row `vars(wallet)` written for one wallet by `Database._to_dict`. -/
def rowOf (w : Wallet) : WalletRow :=
  { private_key := w.private_key, address := w.address,
    proxy := w.proxy, tokens_claimed := w.tokens_claimed }

/-- `Database._to_dict`, the serialized form written by
`Database.save_database`. -/
def toDict (ws : List Wallet) : List WalletRow :=
  ws.map rowOf

/-- Per-row body of `Database.read_from_json` (database.py): pop private_key
and proxy, discard the stored address, rebuild a `Client` (re-deriving the
address and re-running the fatal validity checks) and a `Wallet` carrying the
stored claimed flag. -/
def readRow (cfg : ClientCfg) (r : WalletRow) : Except Fatal Wallet :=
  match mkClient cfg (some r.private_key) r.proxy with
  | .error f => .error f
  | .ok w => .ok { w with tokens_claimed := r.tokens_claimed }

/-- `Database.read_from_json` applied to the parsed rows of the store file:
the loop rebuilds one wallet per row in order, and a fatal exit raised for
any row aborts the whole load. -/
def readFromJson (cfg : ClientCfg) : List WalletRow → Except Fatal (List Wallet)
  | [] => .ok []
  | r :: rows =>
    match readRow cfg r with
    | .error f => .error f
    | .ok w => (readFromJson cfg rows).map (fun ws => w :: ws)

/-- constants.py `CLAIMABLE_AMOUNT_URL` formatted with the lowercased
address. -/
def amountUrl (addr : String) : String :=
  "https://www.zksyncpepe.com/resources/amounts/" ++ addr.toLower ++ ".json"

/-- constants.py `PROOF_URL` formatted with the lowercased address. -/
def proofUrl (addr : String) : String :=
  "https://www.zksyncpepe.com/resources/proofs/" ++ addr.toLower ++ ".json"

/-- Body of one attempt of `Client.send_get_request` (client.py): the HTTP
GET either yields parsed JSON or, for any error, logs and returns `None`. -/
def sendGetOnce {α : Type} (url : String) (attempt : Option α) : List Event × PyOutcome α :=
  ([Event.httpGet url],
   match attempt with
   | some j => .val j
   | none => .pyNone)

/-- `Client.send_get_request`, which carries the retry decorator with
`REQUEST_MAX_RETRIES` tries.  `attempts k` is the JSON result of the k-th
HTTP attempt (`none` meaning any caught request error). -/
def send_get_request {α : Type} (url : String) (attempts : Nat → Option α) :
    List Event × PyOutcome α :=
  retry REQUEST_MAX_RETRIES (fun k => sendGetOnce url (attempts k))

/-- Python tuple unpacking `(amount,) = result`, as performed by
`Claimer._get_claimable_amount` on the value returned by the retry-wrapped
`send_get_request`.  A `None` or `False` result raises `TypeError`; a list
of length other than one raises `ValueError`. -/
def unpackSingleton (r : PyOutcome (List Nat)) : PyOutcome Nat :=
  match r with
  | .raised e => .raised e
  | .pyNone => .raised "TypeError: cannot unpack non-iterable NoneType object"
  | .pyFalse => .raised "TypeError: cannot unpack non-iterable bool object"
  | .val [a] => .val a
  | .val [] => .raised "ValueError: not enough values to unpack"
  | .val _ => .raised "ValueError: too many values to unpack"

/-- Environment for one wallet's claim attempt: the mainnet gas prices read
by the gas gate, the on-chain `claimRecord` call result, the per-attempt HTTP
results of the amount and proof endpoints, the transaction environment, and
the receipt outcome observed by `verify_tx` (which catches every exception
and returns a boolean). -/
structure StepEnv where
  gasPrices : Nat → Nat
  claimRecordRes : Except String Bool
  amountAttempts : Nat → Option (List Nat)
  proofAttempts : Nat → Option (List String)
  sendEnv : SendEnv
  verifyRes : Nat → Bool

/-- `Claimer._get_claimable_amount` (claimer.py): GET the amount endpoint
(no proxy) and unpack the single-element array. -/
def getClaimableAmount (env : StepEnv) (addr : String) : List Event × PyOutcome Nat :=
  let r := send_get_request (amountUrl addr) env.amountAttempts
  (r.1, unpackSingleton r.2)

/-- `Claimer._get_proof` (claimer.py): GET the proof endpoint (no proxy). -/
def getProof (env : StepEnv) (addr : String) : List Event × PyOutcome (List String) :=
  send_get_request (proofUrl addr) env.proofAttempts

/-- Python truthiness of the amount value (`0`, `None` and `False` are
falsy). -/
def amountTruthy (a : PyOutcome Nat) : Option Nat :=
  match a with
  | .val n => if n = 0 then none else some n
  | _ => none

/-- Python truthiness of the proof value (`[]`, `None` and `False` are
falsy). -/
def proofTruthy (p : PyOutcome (List String)) : Option (List String) :=
  match p with
  | .val [] => none
  | .val l => some l
  | _ => none

/-- `Claimer._get_claim_data` (claimer.py): fetch amount then proof; return
the pair when both are truthy, else `None`.  An exception raised while
fetching the amount propagates before the proof is fetched. -/
def getClaimData (env : StepEnv) (addr : String) : List Event × PyOutcome (Nat × List String) :=
  let a := getClaimableAmount env addr
  match a.2 with
  | .raised e => (a.1, .raised e)
  | a2 =>
    let p := getProof env addr
    match p.2 with
    | .raised e => (a.1 ++ p.1, .raised e)
    | p2 =>
      (a.1 ++ p.1,
       match amountTruthy a2, proofTruthy p2 with
       | some n, some l => .val (n, l)
       | _, _ => .pyNone)

/-- `Claimer._check_if_claimed` (claimer.py): call `claimRecord` on the
contract; any exception is caught, logged, and turned into `False`. -/
def checkIfClaimed (env : StepEnv) : List Event × Bool :=
  ([Event.chainRead "claimRecord"],
   match env.claimRecordRes with
   | .ok b => b
   | .error _ => false)

/-- Claimer-level configuration: the client checks, the ABI encoding of the
claim call, the claim contract address, and whether the ABI file is readable
(`Claimer.__init__` fatal-exits through `read_from_json` when it is not). -/
structure ClaimerCfg where
  client : ClientCfg
  encodeABI : List String → Nat → String
  contractAddress : String
  abiFileOk : Bool

/-- Body of `Claimer._claim` (claimer.py), before the gas-gate decorator is
applied: check the on-chain claim record, fetch the claim data, encode the
call with the amount scaled by 10^ZKPEPE_DECIMALS, send the transaction, and
verify it when a hash came back. -/
def claimInner (cfg : ClaimerCfg) (env : StepEnv) (addr : String) :
    List Event × PyOutcome Bool :=
  let c := checkIfClaimed env
  if c.2 then (c.1, .val true)
  else
    let cd := getClaimData env addr
    match cd.2 with
    | .raised e => (c.1 ++ cd.1, .raised e)
    | .val (amount, proof) =>
      let callData := cfg.encodeABI proof (amount * 10 ^ ZKPEPE_DECIMALS)
      let tx := send_transaction env.sendEnv addr (some cfg.contractAddress) (some callData)
        none none
      match tx.2 with
      | .raised e => (c.1 ++ cd.1 ++ tx.1, .raised e)
      | .noneHash => (c.1 ++ cd.1 ++ tx.1, .val false)
      | .hash h => (c.1 ++ cd.1 ++ tx.1 ++ [Event.receiptPoll], .val (env.verifyRes h))
    | _ => (c.1 ++ cd.1, .val false)

/-- `Claimer._claim` as decorated by `gas_delay(GAS_THRESHOLD,
GAS_DELAY_RANGE)`. -/
def claimGated (fuel : Nat) (cfg : ClaimerCfg) (env : StepEnv) (addr : String) :
    Option (List Event × PyOutcome Bool) :=
  gas_delay fuel GAS_THRESHOLD env.gasPrices (claimInner cfg env addr)

/-- One iteration of the `while` loop of `Claimer.claim` (claimer.py) on a
non-empty store, with `idx` the index drawn by `get_random_wallet`.  An
already-claimed wallet is deleted (which also saves the store) and the loop
continues with no client construction and no network call; otherwise a
client and claimer are built and the gas-gated claim runs, followed by a
deletion on success and the pacing sleep.  `none` means the gas gate ran out
of fuel; an exception raised anywhere in the body is not caught. -/
def claimStep (fuel : Nat) (cfg : ClaimerCfg) (env : StepEnv) (db : List Wallet) (idx : Nat) :
    Option (List Event × Except String (List Wallet)) :=
  match db[idx]? with
  | none => some ([], .ok db)
  | some w =>
    if w.tokens_claimed then
      some ([Event.deleteWallet idx, Event.saveDatabase], .ok (db.eraseIdx idx))
    else
      match mkClient cfg.client (some w.private_key) w.proxy with
      | .error _ => some ([Event.clientInit], .error "SystemExit")
      | .ok c =>
        if cfg.abiFileOk then
          match claimGated fuel cfg env c.address with
          | none => none
          | some (es, r) =>
            match r with
            | .raised e => some (Event.clientInit :: Event.fileRead :: es, .error e)
            | .val true =>
              some (Event.clientInit :: Event.fileRead :: es ++
                      [Event.deleteWallet idx, Event.saveDatabase, Event.sleepEvent],
                    .ok (db.eraseIdx idx))
            | _ =>
              some (Event.clientInit :: Event.fileRead :: es ++ [Event.sleepEvent], .ok db)
        else some ([Event.clientInit, Event.fileRead], .error "SystemExit")

/-- Loop of `Claimer.claim` with an iteration counter `k` (used to index the
per-iteration environments and random draws) and a loop fuel bound.  A raised
exception aborts the whole loop; the loop ends normally only when the store
is empty. -/
def claimLoopGo (gasFuel : Nat) (cfg : ClaimerCfg) (envs : Nat → StepEnv) (idxs : Nat → Nat) :
    Nat → Nat → List Wallet → Option (List Event × Except String (List Wallet))
  | _, 0, _ => none
  | k, n + 1, db =>
    if db.isEmpty then some ([], .ok db)
    else
      match claimStep gasFuel cfg (envs k) db (idxs k % db.length) with
      | none => none
      | some (es, .error e) => some (es, .error e)
      | some (es, .ok db2) =>
        match claimLoopGo gasFuel cfg envs idxs (k + 1) n db2 with
        | none => none
        | some (es2, r) => some (es ++ es2, r)

/-- `Claimer.claim` (claimer.py): loop until the store is empty, drawing a
random wallet each iteration. -/
def claimLoop (gasFuel loopFuel : Nat) (cfg : ClaimerCfg) (envs : Nat → StepEnv)
    (idxs : Nat → Nat) (db : List Wallet) : Option (List Event × Except String (List Wallet)) :=
  claimLoopGo gasFuel cfg envs idxs 0 loopFuel db

/-- Concrete claimer configuration used for evaluating the model: every key
and proxy is accepted and the derived address prefixes the key with `0x`. -/
def cfg0 : ClaimerCfg :=
  { client := { validKey := fun _ => true, derive := fun k => "0x" ++ k,
                validProxy := fun _ => true },
    encodeABI := fun _ n => "claim" ++ toString n,
    contractAddress := "0xC", abiFileOk := true }

/-- A concrete unclaimed wallet. -/
def w0 : Wallet :=
  { private_key := "key1", address := "0xkey1", proxy := none, tokens_claimed := false }

/-- Environment in which the gas price is acceptable, the wallet is not yet
claimed on chain, the proof endpoint answers, but the amount endpoint returns
the empty JSON array. -/
def envAmountEmpty : StepEnv :=
  { gasPrices := fun _ => 0,
    claimRecordRes := .ok false,
    amountAttempts := fun _ => some [],
    proofAttempts := fun _ => some ["p"],
    sendEnv := { buildAttempts := fun _ => ⟨.ok 324, .ok 0, .ok 7⟩,
                 estimateAttempts := fun _ => .ok 21000,
                 signRes := .ok (), sendRawRes := .ok 99 },
    verifyRes := fun _ => true }

/-- Environment identical to `envAmountEmpty` except that the amount endpoint
answers normally and every `chain_id` read raises a connection error. -/
def envChainIdErr : StepEnv :=
  { envAmountEmpty with
      amountAttempts := fun _ => some [5],
      sendEnv := { buildAttempts := fun _ => ⟨.error "ConnectionError", .ok 0, .ok 7⟩,
                   estimateAttempts := fun _ => .ok 21000,
                   signRes := .ok (), sendRawRes := .ok 99 } }

/-- Transaction environment in which the build reads succeed, every gas
estimate raises (so each attempt returns `None` and the retry budget is
exhausted), signing succeeds and the node accepts the broadcast. -/
def envEstimateFail : SendEnv :=
  { buildAttempts := fun _ => ⟨.ok 324, .ok 0, .ok 7⟩,
    estimateAttempts := fun _ => .error "execution reverted",
    signRes := .ok (), sendRawRes := .ok 5 }

/-- Like `envEstimateFail` but the signer raises on the malformed gas field. -/
def envEstimateFailSignRaise : SendEnv :=
  { envEstimateFail with signRes := .error "TypeError: gas" }

/-- Accumulated event trace of a run of the retry loop in which every attempt
fails: invocation, the attempt's own events, then the backoff sleep. -/
def allFailTrace {α : Type} (f : Nat → List Event × PyOutcome α) : Nat → Nat → List Event
  | _, 0 => []
  | k, n + 1 => Event.invoke k :: (f k).1 ++ Event.sleepEvent :: allFailTrace f (k + 1) n

lemma retryGo_allFail {α : Type} (f : Nat → List Event × PyOutcome α)
    (hf : ∀ k, (f k).2 = PyOutcome.pyNone ∨ (f k).2 = PyOutcome.pyFalse) :
    ∀ n k, retryGo f k n = (allFailTrace f k n, PyOutcome.pyFalse) := by
  intro n
  induction n with
  | zero => intro k; simp [retryGo, allFailTrace]
  | succ n ih =>
    intro k
    rcases hf k with h0 | h0 <;>
      simp [retryGo, allFailTrace, h0, ih (k + 1)]

lemma allFailTrace_flatten {α : Type} (f : Nat → List Event × PyOutcome α) :
    ∀ n k, allFailTrace f k n =
      ((List.range n).map
        (fun i => Event.invoke (k + i) :: (f (k + i)).1 ++ [Event.sleepEvent])).flatten := by
  intro n
  induction n with
  | zero => intro k; simp [allFailTrace]
  | succ n ih =>
    intro k
    rw [allFailTrace, ih (k + 1), List.range_succ_eq_map]
    simp only [List.map_cons, List.flatten_cons, List.map_map, Nat.add_zero, Function.comp]
    have hmap :
        (List.range n).map (fun i => Event.invoke (k + 1 + i) :: (f (k + 1 + i)).1 ++ [Event.sleepEvent])
          = (List.range n).map (fun i => Event.invoke (k + (i + 1)) :: (f (k + (i + 1))).1 ++ [Event.sleepEvent]) := by
      apply List.map_congr_left
      intro i _
      have harith : k + 1 + i = k + (i + 1) := by omega
      rw [harith]
    rw [hmap]
    simp only [List.cons_append, List.append_assoc, List.singleton_append]
    congr 2

lemma retryGo_val {α : Type} (f : Nat → List Event × PyOutcome α) (k n : Nat) (a : α)
    (h : (f k).2 = PyOutcome.val a) :
    retryGo f k (n + 1) = (Event.invoke k :: (f k).1, PyOutcome.val a) := by
  simp [retryGo, h]

/-- C3: invoked with a try budget `N >= 1` and an operation that fails
(returns `None` or `False`) on every attempt, the retry decorator consults
the operation exactly at attempts `0, ..., N-1` — its trace is exactly the N
invocation blocks, each followed by the backoff sleep — and then returns the
canonical failure value `False` instead of raising. -/
theorem retry_allfail_exact_tries {α : Type} (N : Nat) (f : Nat → List Event × PyOutcome α)
    (_hN : 1 ≤ N)
    (hfail : ∀ k, (f k).2 = PyOutcome.pyNone ∨ (f k).2 = PyOutcome.pyFalse) :
    retry N f =
      (((List.range N).map (fun k => Event.invoke k :: (f k).1 ++ [Event.sleepEvent])).flatten,
       PyOutcome.pyFalse) := by
  rw [retry, retryGo_allFail f hfail N 0, allFailTrace_flatten]
  simp

/-- Witness for C3 at `N = 3` and an operation that always returns `None`. -/
theorem retry_allfail_exact_tries_witness :
    retry 3 (fun _ => (([] : List Event), PyOutcome.pyNone (α := Nat))) =
      ([Event.invoke 0, Event.sleepEvent, Event.invoke 1, Event.sleepEvent,
        Event.invoke 2, Event.sleepEvent], PyOutcome.pyFalse) := by
  have h := retry_allfail_exact_tries 3 (fun _ => (([] : List Event), PyOutcome.pyNone (α := Nat)))
    (by decide) (fun _ => Or.inl rfl)
  rw [h]
  rfl

/-- Accumulated event trace of the gas gate while the price is too high:
each loop iteration reads the price and then sleeps. -/
def waitTrace (prices : Nat → Nat) : Nat → Nat → List Event
  | _, 0 => []
  | k, n + 1 => Event.readGasPrice (prices k) :: Event.gasWait :: waitTrace prices (k + 1) n

lemma gasDelayGo_spec {α : Type} (prices : Nat → Nat) (thr : Nat) (body : List Event × α) :
    ∀ n k m, (∀ i < n, thr < prices (k + i)) → prices (k + n) ≤ thr → n < m →
      gasDelayGo prices thr body k m =
        some (waitTrace prices k n ++
                Event.readGasPrice (prices (k + n)) :: Event.invokeProtected :: body.1, body.2) := by
  intro n
  induction n with
  | zero =>
    intro k m _ hnow hm
    obtain ⟨m2, rfl⟩ : ∃ m2, m = m2 + 1 := ⟨m - 1, by omega⟩
    have : ¬ thr < prices k := by simpa using hnow
    simp [gasDelayGo, this, waitTrace]
  | succ n ih =>
    intro k m hbefore hnow hm
    obtain ⟨m2, rfl⟩ : ∃ m2, m = m2 + 1 := ⟨m - 1, by omega⟩
    have h0 : thr < prices k := by simpa using hbefore 0 (by omega)
    have hrec := ih (k + 1) m2
      (fun i hi => by
        have := hbefore (i + 1) (by omega)
        simpa [Nat.add_assoc, Nat.add_comm 1 i] using this)
      (by
        have : k + 1 + n = k + (n + 1) := by omega
        rw [this]; exact hnow)
      (by omega)
    have harith : k + 1 + n = k + (n + 1) := by omega
    simp [gasDelayGo, h0, hrec, waitTrace, harith]

lemma waitTrace_flatten (prices : Nat → Nat) :
    ∀ n k, waitTrace prices k n =
      ((List.range n).map (fun i => [Event.readGasPrice (prices (k + i)), Event.gasWait])).flatten := by
  intro n
  induction n with
  | zero => intro k; simp [waitTrace]
  | succ n ih =>
    intro k
    rw [waitTrace, ih (k + 1), List.range_succ_eq_map]
    simp only [List.map_cons, List.flatten_cons, List.map_map, Nat.add_zero, Function.comp]
    have hmap :
        (List.range n).map (fun i => [Event.readGasPrice (prices (k + 1 + i)), Event.gasWait])
          = (List.range n).map (fun i => [Event.readGasPrice (prices (k + (i + 1))), Event.gasWait]) := by
      apply List.map_congr_left
      intro i _
      have harith : k + 1 + i = k + (i + 1) := by omega
      rw [harith]
    rw [hmap]
    simp only [List.cons_append, List.append_assoc, List.singleton_append]
    congr 2

lemma countP_flatten_zero {beta : Type} (p : beta → Bool) :
    ∀ L : List (List beta), (∀ l ∈ L, l.countP p = 0) → L.flatten.countP p = 0 := by
  intro L
  induction L with
  | nil => intro _; simp
  | cons a L ih =>
    intro h
    rw [List.flatten_cons, List.countP_append, h a (by simp),
      ih (fun l hl => h l (by simp [hl]))]

lemma waitTrace_no_invoke (prices : Nat → Nat) :
    ∀ n k, (waitTrace prices k n).countP isInvokeProtected = 0 := by
  intro n
  induction n with
  | zero => intro k; simp [waitTrace]
  | succ n ih =>
    intro k
    simp [waitTrace, List.countP_cons, isInvokeProtected, ih (k + 1)]

/-- C4: if the first `n` gas-price reads strictly exceed the configured
threshold (converted from gwei to wei) and the read `n` does not exceed it —
equality with the threshold included — then the gas gate emits exactly `n`
read/wait blocks, none of which invokes the protected operation, then a
final read followed by exactly one invocation of the protected operation,
and returns the operation's result. -/
theorem gas_delay_gate {α : Type} (fuel n gw : Nat) (prices : Nat → Nat)
    (bodyEvents : List Event) (bodyResult : α)
    (hbefore : ∀ k < n, gw * 10 ^ 9 < prices k)
    (hnow : prices n ≤ gw * 10 ^ 9)
    (hfuel : n < fuel) :
    gas_delay fuel gw prices (bodyEvents, bodyResult) =
      some (((List.range n).map (fun k => [Event.readGasPrice (prices k), Event.gasWait])).flatten
              ++ Event.readGasPrice (prices n) :: Event.invokeProtected :: bodyEvents, bodyResult)
    ∧ (((List.range n).map (fun k => [Event.readGasPrice (prices k), Event.gasWait])).flatten).countP
        isInvokeProtected = 0 := by
  constructor
  · have h := gasDelayGo_spec prices (gw * 10 ^ 9) (bodyEvents, bodyResult) n 0 fuel
      (fun i hi => by simpa using hbefore i hi) (by simpa using hnow) hfuel
    rw [gas_delay, h, waitTrace_flatten]
    simp
  · apply countP_flatten_zero
    intro l hl
    rcases List.mem_map.mp hl with ⟨i, _, rfl⟩
    simp [List.countP_cons, isInvokeProtected]

/-- The gas-price source used by the C4 witness: two reads above the
threshold, then a read exactly equal to the threshold. -/
def pricesBoundary : Nat → Nat :=
  fun k => if k < 2 then 80000000000 else 70000000000

/-- Witness for C4: with the configured 70 gwei threshold, two reads of 80
gwei delay the protected operation and a third read of exactly 70 gwei (the
boundary) lets it run once, returning its result. -/
theorem gas_delay_gate_witness :
    gas_delay 5 GAS_THRESHOLD pricesBoundary (([] : List Event), 42) =
      some ([Event.readGasPrice 80000000000, Event.gasWait,
             Event.readGasPrice 80000000000, Event.gasWait,
             Event.readGasPrice 70000000000, Event.invokeProtected], 42) := by
  have h := gas_delay_gate 5 2 GAS_THRESHOLD pricesBoundary [] 42
    (by decide) (by decide) (by decide)
  rw [h.1]
  rfl

/-- C1 (failing behaviour at a concrete input): a connection error raised by
the chain-id read inside `_get_tx_params` is not converted into the retry
sentinel — the retry-wrapped build raises on its first invocation — and the
exception crosses the orchestrator loop of `Claimer.claim` as a hard
failure, aborting the run mid-batch with the wallet still unprocessed. -/
theorem network_error_escapes_orchestrator :
    (retry REQUEST_MAX_RETRIES
        (fun k => getTxParamsOnce (envChainIdErr.sendEnv.buildAttempts k) "a" none none none none)).2
      = PyOutcome.raised "ConnectionError"
    ∧ (claimLoop 1 3 cfg0 (fun _ => envChainIdErr) (fun _ => 0) [w0]).map Prod.snd =
        some (Except.error "ConnectionError") :=
  ⟨rfl, rfl⟩

/-- C2 (failing behaviour at concrete inputs): when every gas estimate fails
and the retry budget is exhausted, `send_transaction` does not return the
`None` sentinel — the retry decorator yields `False`, the `gas is None`
guard passes, and the code signs and broadcasts, here returning a hash; and
if the signer raises on the malformed parameters, `send_transaction` raises
instead of returning the sentinel. -/
theorem estimate_failure_not_sentinel :
    (send_transaction envEstimateFail "a" (some "0xC") (some "d") none none).2 = SendResult.hash 5
    ∧ (send_transaction envEstimateFailSignRaise "a" (some "0xC") (some "d") none none).2 =
        SendResult.raised "TypeError: gas"
    ∧ SendResult.hash 5 ≠ SendResult.noneHash :=
  ⟨rfl, rfl, by decide⟩

/-- C5 (failing behaviour at a concrete input): when the amount endpoint
returns the empty JSON array, the tuple unpacking in
`_get_claimable_amount` raises `ValueError`; no transaction is broadcast,
but the exception escapes `claimStep` and aborts the whole claim loop
instead of failing the attempt and moving on. -/
theorem empty_amount_crashes_run :
    (claimStep 1 cfg0 envAmountEmpty [w0] 0).map (fun p => (p.2, p.1.countP isBroadcast)) =
      some (Except.error "ValueError: not enough values to unpack", 0)
    ∧ (claimLoop 1 3 cfg0 (fun _ => envAmountEmpty) (fun _ => 0) [w0]).map Prod.snd =
        some (Except.error "ValueError: not enough values to unpack") :=
  ⟨rfl, rfl⟩

/-- C8: a wallet whose claimed flag is already set when drawn from the store
is deleted (with the store saved) and the loop body performs no other
action: no client construction, no HTTP request, no chain read, no
broadcast. -/
theorem claimed_wallet_removed_offline (fuel : Nat) (cfg : ClaimerCfg) (env : StepEnv)
    (db : List Wallet) (idx : Nat) (w : Wallet)
    (hidx : db[idx]? = some w) (hcl : w.tokens_claimed = true) :
    claimStep fuel cfg env db idx =
      some ([Event.deleteWallet idx, Event.saveDatabase], Except.ok (db.eraseIdx idx))
    ∧ ([Event.deleteWallet idx, Event.saveDatabase] : List Event).countP isNetworkEvent = 0
    ∧ Event.clientInit ∉ ([Event.deleteWallet idx, Event.saveDatabase] : List Event) := by
  refine ⟨?_, by simp [List.countP_cons, isNetworkEvent], by simp⟩
  simp [claimStep, hidx, hcl]

/-- A concrete wallet whose claimed flag is already set. -/
def wClaimed : Wallet :=
  { private_key := "k", address := "0xk", proxy := none, tokens_claimed := true }

/-- Witness for C8 on a one-wallet store whose wallet is already claimed. -/
theorem claimed_wallet_removed_offline_witness :
    claimStep 1 cfg0 envAmountEmpty [wClaimed] 0 =
      some ([Event.deleteWallet 0, Event.saveDatabase], Except.ok ([] : List Wallet)) :=
  (claimed_wallet_removed_offline 1 cfg0 envAmountEmpty [wClaimed] 0 wClaimed rfl rfl).1

/-- C10: after exhausting all tries the retry decorator returns the boolean
`False`, never `None`, even when the wrapped operation's own failure
sentinel is `None`; consequently the `gas is None` test in
`send_transaction` does not recognize estimate-retry exhaustion as a
failure and the code goes on to sign and broadcast (here obtaining a hash)
instead of returning the sentinel. -/
theorem retry_exhaustion_false_not_none {α : Type} (N : Nat)
    (f : Nat → List Event × PyOutcome α)
    (hfail : ∀ k, (f k).2 = PyOutcome.pyNone) :
    (retry N f).2 = PyOutcome.pyFalse
    ∧ (PyOutcome.pyFalse : PyOutcome α) ≠ PyOutcome.pyNone
    ∧ (send_transaction envEstimateFail "a" (some "0xC") (some "d") none none).2 =
        SendResult.hash 5 := by
  refine ⟨?_, fun h => PyOutcome.noConfusion h, rfl⟩
  rw [retry, retryGo_allFail f (fun k => Or.inl (hfail k)) N 0]

/-- Witness for C10 at `N = 2` and an operation that always returns `None`. -/
theorem retry_exhaustion_false_not_none_witness :
    (retry 2 (fun _ => (([] : List Event), PyOutcome.pyNone (α := Nat)))).2 = PyOutcome.pyFalse
    ∧ (PyOutcome.pyFalse : PyOutcome Nat) ≠ PyOutcome.pyNone
    ∧ (send_transaction envEstimateFail "a" (some "0xC") (some "d") none none).2 =
        SendResult.hash 5 :=
  retry_exhaustion_false_not_none 2 (fun _ => (([] : List Event), PyOutcome.pyNone (α := Nat)))
    (fun _ => rfl)

/-- Decidable equality for `Except`, used to evaluate the model on concrete
inputs. -/
instance {eps alpha : Type} [DecidableEq eps] [DecidableEq alpha] : DecidableEq (Except eps alpha) :=
  fun a b =>
    match a, b with
    | .error e, .error f =>
      if h : e = f then .isTrue (by rw [h]) else .isFalse (fun hc => h (Except.error.inj hc))
    | .ok x, .ok y =>
      if h : x = y then .isTrue (by rw [h]) else .isFalse (fun hc => h (Except.ok.inj hc))
    | .error _, .ok _ => .isFalse (fun hc => Except.noConfusion hc)
    | .ok _, .error _ => .isFalse (fun hc => Except.noConfusion hc)

/-- Validity of the optional proxy slot under the `PROXY_PATTERN` check
(`Client._set_proxy` accepts `None` unchanged). -/
def proxyOk (cfg : ClientCfg) : Option String → Bool
  | none => true
  | some p => cfg.validProxy p

/-- Specification helper: the wallet list produced by a successful store
creation — each key paired positionally with a proxy, missing proxies
defaulting to none, the address derived from the key, the claimed flag
false. -/
def builtWallets (cfg : ClientCfg) : List String → List String → List Wallet
  | [], _ => []
  | k :: ks, [] =>
    { private_key := k, address := cfg.derive k, proxy := none, tokens_claimed := false }
      :: builtWallets cfg ks []
  | k :: ks, p :: ps =>
    { private_key := k, address := cfg.derive k, proxy := some p, tokens_claimed := false }
      :: builtWallets cfg ks ps

lemma createGo_builds (cfg : ClientCfg) :
    ∀ keys proxies : List String, (∀ k ∈ keys, cfg.validKey k = true) →
      (∀ p ∈ proxies, cfg.validProxy p = true) → proxies.length ≤ keys.length →
      createGo cfg (zipLongest keys proxies) = .ok (builtWallets cfg keys proxies) := by
  intro keys
  induction keys with
  | nil =>
    intro proxies _ _ hlen
    have hnil : proxies = [] := List.length_eq_zero.mp (by simpa using hlen)
    subst hnil
    simp [zipLongest, createGo, builtWallets]
  | cons k ks ih =>
    intro proxies hk hp hlen
    cases proxies with
    | nil =>
      have hrest := ih [] (fun x hx => hk x (by simp [hx])) (by simp) (by simp)
      simp [zipLongest, createGo, mkClient, hk k (by simp), hrest, builtWallets, Except.map]
    | cons p ps =>
      have hrest := ih ps (fun x hx => hk x (by simp [hx]))
        (fun x hx => hp x (by simp [hx])) (by simpa using hlen)
      simp [zipLongest, createGo, mkClient, hk k (by simp), hp p (by simp), hrest, builtWallets, Except.map]

lemma createGo_surplus (cfg : ClientCfg) :
    ∀ keys proxies : List String, (∀ k ∈ keys, cfg.validKey k = true) →
      (∀ p ∈ proxies, cfg.validProxy p = true) → keys.length < proxies.length →
      createGo cfg (zipLongest keys proxies) = .error Fatal.proxyCountExit := by
  intro keys
  induction keys with
  | nil =>
    intro proxies _ _ hlen
    cases proxies with
    | nil => simp at hlen
    | cons p ps => simp [zipLongest, createGo, mkClient]
  | cons k ks ih =>
    intro proxies hk hp hlen
    cases proxies with
    | nil => simp at hlen
    | cons p ps =>
      have hrest := ih ps (fun x hx => hk x (by simp [hx]))
        (fun x hx => hp x (by simp [hx])) (by simpa using hlen)
      simp [zipLongest, createGo, mkClient, hk k (by simp), hp p (by simp), hrest, Except.map]

lemma builtWallets_address (cfg : ClientCfg) :
    ∀ keys proxies : List String,
      (builtWallets cfg keys proxies).map Wallet.address = keys.map cfg.derive := by
  intro keys
  induction keys with
  | nil => intro proxies; simp [builtWallets]
  | cons k ks ih =>
    intro proxies
    cases proxies with
    | nil => simp [builtWallets, ih []]
    | cons p ps => simp [builtWallets, ih ps]

lemma builtWallets_length (cfg : ClientCfg) :
    ∀ keys proxies : List String,
      (builtWallets cfg keys proxies).length = keys.length := by
  intro keys
  induction keys with
  | nil => intro proxies; simp [builtWallets]
  | cons k ks ih =>
    intro proxies
    cases proxies with
    | nil => simp [builtWallets, ih []]
    | cons p ps => simp [builtWallets, ih ps]

lemma builtWallets_proxy (cfg : ClientCfg) :
    ∀ keys proxies : List String, proxies.length ≤ keys.length →
      (builtWallets cfg keys proxies).map Wallet.proxy =
        proxies.map some ++ List.replicate (keys.length - proxies.length) none := by
  intro keys
  induction keys with
  | nil =>
    intro proxies hlen
    have hnil : proxies = [] := List.length_eq_zero.mp (by simpa using hlen)
    subst hnil
    simp [builtWallets]
  | cons k ks ih =>
    intro proxies hlen
    cases proxies with
    | nil => simp [builtWallets, ih [] (by simp), List.replicate_succ]
    | cons p ps => simp [builtWallets, ih ps (by simpa using hlen)]

/-- C9: with well-formed inputs, a proxy list longer than the key list makes
store creation fail with the fatal proxy-count exit (no store is produced),
while a proxy list no longer than the key list yields a store with one
wallet per key whose missing proxies default to none. -/
theorem create_database_proxy_counts (cfg : ClientCfg) (keys proxies : List String)
    (hk : ∀ k ∈ keys, cfg.validKey k = true)
    (hp : ∀ p ∈ proxies, cfg.validProxy p = true) :
    (keys.length < proxies.length →
      createDatabase cfg keys proxies USE_MOBILE_PROXY = .error Fatal.proxyCountExit)
    ∧ (proxies.length ≤ keys.length →
      (createDatabase cfg keys proxies USE_MOBILE_PROXY).map List.length = .ok keys.length
      ∧ (createDatabase cfg keys proxies USE_MOBILE_PROXY).map (List.map Wallet.proxy) =
          .ok (proxies.map some ++ List.replicate (keys.length - proxies.length) none)) := by
  have hdb : createDatabase cfg keys proxies USE_MOBILE_PROXY =
      createGo cfg (zipLongest keys proxies) := by
    simp [createDatabase, USE_MOBILE_PROXY]
  constructor
  · intro hlen
    rw [hdb, createGo_surplus cfg keys proxies hk hp hlen]
  · intro hlen
    rw [hdb, createGo_builds cfg keys proxies hk hp hlen]
    constructor
    · simp [Except.map, builtWallets_length]
    · simp [Except.map, builtWallets_proxy cfg keys proxies hlen]

/-- Witness for C9: two keys and one proxy are accepted, the second wallet
getting no proxy; one key and two proxies trigger the fatal exit. -/
theorem create_database_proxy_counts_witness :
    (createDatabase cfg0.client ["a", "b"] ["p"] USE_MOBILE_PROXY).map (List.map Wallet.proxy) =
      Except.ok [some "p", none]
    ∧ createDatabase cfg0.client ["a"] ["p", "q"] USE_MOBILE_PROXY =
        Except.error Fatal.proxyCountExit := by
  constructor
  · exact ((create_database_proxy_counts cfg0.client ["a", "b"] ["p"] (by decide)
      (by decide)).2 (by decide)).2
  · exact (create_database_proxy_counts cfg0.client ["a"] ["p", "q"] (by decide)
      (by decide)).1 (by decide)

/-- C6 counterexample: creating the store from an input key list that
contains the same private key twice yields two records with the same
derived address, so the claimed invariant fails as stated for stores
produced by creation from the input files. -/
theorem store_duplicate_address_counterexample :
    createDatabase cfg0.client ["ab", "ab"] [] USE_MOBILE_PROXY =
      Except.ok [{ private_key := "ab", address := "0xab", proxy := none, tokens_claimed := false },
                 { private_key := "ab", address := "0xab", proxy := none, tokens_claimed := false }]
    ∧ ¬ (([{ private_key := "ab", address := "0xab", proxy := none, tokens_claimed := false },
           { private_key := "ab", address := "0xab", proxy := none, tokens_claimed := false }] :
            List Wallet).map Wallet.address).Nodup :=
  ⟨by decide, by decide⟩

lemma readFromJson_toDict (cfg : ClientCfg) :
    ∀ ws : List Wallet,
      (∀ w ∈ ws, cfg.validKey w.private_key = true ∧ proxyOk cfg w.proxy = true) →
      readFromJson cfg (toDict ws) =
        .ok (ws.map (fun w => { w with address := cfg.derive w.private_key })) := by
  intro ws
  induction ws with
  | nil => intro _; simp [toDict, readFromJson]
  | cons w ws ih =>
    intro h
    have hw := h w (by simp)
    have hrest := ih (fun x hx => h x (by simp [hx]))
    simp only [toDict, List.map_cons] at hrest ⊢
    cases hpx : w.proxy with
    | none =>
      have hk := hw.1
      simp [readFromJson, readRow, rowOf, mkClient, hk, hpx, hrest, Except.map]
    | some p =>
      have hk := hw.1
      have hvp : cfg.validProxy p = true := by
        have h2 := hw.2
        rw [hpx] at h2
        simpa [proxyOk] using h2
      simp [readFromJson, readRow, rowOf, mkClient, hk, hvp, hpx, hrest, Except.map]

/-- C7: reloading the serialized store reproduces, in order, one record per
original record with identical private key, proxy and claimed flag, the
address being re-derived from the private key. -/
theorem store_roundtrip (cfg : ClientCfg) (ws : List Wallet)
    (h : ∀ w ∈ ws, cfg.validKey w.private_key = true ∧ proxyOk cfg w.proxy = true) :
    readFromJson cfg (toDict ws) =
      .ok (ws.map (fun w => { w with address := cfg.derive w.private_key }))
    ∧ (ws.map (fun w => ({ w with address := cfg.derive w.private_key } : Wallet))).length
        = ws.length
    ∧ (ws.map (fun w => ({ w with address := cfg.derive w.private_key } : Wallet))).map
        Wallet.private_key = ws.map Wallet.private_key
    ∧ (ws.map (fun w => ({ w with address := cfg.derive w.private_key } : Wallet))).map
        Wallet.proxy = ws.map Wallet.proxy
    ∧ (ws.map (fun w => ({ w with address := cfg.derive w.private_key } : Wallet))).map
        Wallet.tokens_claimed = ws.map Wallet.tokens_claimed
    ∧ ∀ w2 ∈ ws.map (fun w => ({ w with address := cfg.derive w.private_key } : Wallet)),
        w2.address = cfg.derive w2.private_key := by
  refine ⟨readFromJson_toDict cfg ws h, by simp, ?_, ?_, ?_, ?_⟩
  · simp [List.map_map, Function.comp]
  · simp [List.map_map, Function.comp]
  · simp [List.map_map, Function.comp]
  · intro w2 hw2
    rcases List.mem_map.mp hw2 with ⟨w, _, rfl⟩
    rfl

/-- A concrete wallet with a proxy, a stale persisted address and a set
claimed flag, used by the C7 witness. -/
def wProxied : Wallet :=
  { private_key := "k2", address := "stale", proxy := some "p", tokens_claimed := true }

/-- Witness for C7 on a two-wallet store: keys, proxies and claimed flags
survive the round trip and the stale address is re-derived. -/
theorem store_roundtrip_witness :
    readFromJson cfg0.client (toDict [w0, wProxied]) =
      Except.ok [{ private_key := "key1", address := "0xkey1", proxy := none,
                   tokens_claimed := false },
                 { private_key := "k2", address := "0xk2", proxy := some "p",
                   tokens_claimed := true }] :=
  (store_roundtrip cfg0.client [w0, wProxied] (by decide)).1

/-- C6 (amended): provided the input private keys derive pairwise-distinct
addresses, creation yields a store without duplicate addresses; deletion
never introduces a duplicate; and a save-then-load cycle (which re-derives
addresses) preserves the absence of duplicates for stores whose addresses
agree with their keys. -/
theorem store_nodup_amended (cfg : ClientCfg) :
    (∀ keys proxies ws, (∀ k ∈ keys, cfg.validKey k = true) →
      (∀ p ∈ proxies, cfg.validProxy p = true) →
      proxies.length ≤ keys.length → (keys.map cfg.derive).Nodup →
      createDatabase cfg keys proxies false = .ok ws → (ws.map Wallet.address).Nodup)
    ∧ (∀ (ws : List Wallet) (i : Nat), (ws.map Wallet.address).Nodup →
        ((ws.eraseIdx i).map Wallet.address).Nodup)
    ∧ (∀ ws ws2 : List Wallet,
        (∀ w ∈ ws, cfg.validKey w.private_key = true ∧ proxyOk cfg w.proxy = true) →
        (∀ w ∈ ws, w.address = cfg.derive w.private_key) →
        (ws.map Wallet.address).Nodup →
        readFromJson cfg (toDict ws) = .ok ws2 → (ws2.map Wallet.address).Nodup) := by
  refine ⟨?_, ?_, ?_⟩
  · intro keys proxies ws hk hp hlen hnd hok
    have hdb : createDatabase cfg keys proxies false = createGo cfg (zipLongest keys proxies) := by
      simp [createDatabase]
    rw [hdb, createGo_builds cfg keys proxies hk hp hlen] at hok
    obtain rfl := (Except.ok.inj hok).symm
    rw [builtWallets_address]
    exact hnd
  · intro ws i h
    have hsub : List.Sublist ((ws.eraseIdx i).map Wallet.address) (ws.map Wallet.address) :=
      (List.eraseIdx_sublist ws i).map Wallet.address
    exact List.Nodup.sublist hsub h
  · intro ws ws2 hvalid haddr hnd hok
    rw [readFromJson_toDict cfg ws hvalid] at hok
    obtain rfl := (Except.ok.inj hok).symm
    rw [List.map_map]
    have heq : ws.map (Wallet.address ∘ fun w => { w with address := cfg.derive w.private_key })
        = ws.map Wallet.address := by
      apply List.map_congr_left
      intro w hw
      simp [Function.comp]
      exact (haddr w hw).symm
    rw [heq]
    exact hnd

/-- Witness for C6 (amended) on a two-key input with distinct derived
addresses. -/
theorem store_nodup_amended_witness :
    ((["a", "b"].map cfg0.client.derive).Nodup)
    ∧ (([⟨"a", "0xa", none, false⟩, ⟨"b", "0xb", none, false⟩] : List Wallet).map
        Wallet.address).Nodup := by
  refine ⟨by decide, ?_⟩
  exact (store_nodup_amended cfg0.client).1 ["a", "b"] []
    [⟨"a", "0xa", none, false⟩, ⟨"b", "0xb", none, false⟩]
    (by decide) (by decide) (by decide) (by decide) (by decide)

end ZkPepe
